import Mathlib

/-!
Shallow embedding of the DeepSeek HUD chat overlay (src/HUDWidget.py) and
proofs of the testable properties of its streaming-response pipeline.

The embedding covers:
  * the `Message` / conversation-history data model;
  * `DeepSeekWorker.run` as a pure function from a modelled provider stream
    (a list of chunk contents, optionally cut short by an exception) to the
    list of Qt signals it emits;
  * the controller slots `send_message`, `append_user_message`,
    `render_final_message`, `refresh_display_with_markdown` and
    `handle_error` as pure state transformers over a record holding the
    history, the input field text, the transient streaming buffer and the
    list of HTML fragments appended to the display.

The third-party Markdown converter (`markdown.markdown` with the
`fenced_code` and `nl2br` extensions) is external to the repository and is
modelled as an opaque-to-the-proofs function parameter `md : String → String`.
-/

/-- A chat message: `{"role": ..., "content": ...}` as used throughout
`HUDWidget.py`. -/
structure Message where
  role : String
  content : String
deriving DecidableEq, Repr

/-- One streamed chunk from the provider; `content` models
`chunk.choices[0].delta.content`, which may be absent (`None`). -/
structure StreamChunk where
  content : Option String
deriving DecidableEq, Repr

/-- The outcome of the provider interaction seen by `DeepSeekWorker.run`:
either the stream yields all its chunks and closes normally, or an exception
is raised after some already-delivered chunks (an exception while
establishing the connection is `err [] e`). `e` models `str(e)`. -/
inductive StreamResult where
  | ok (chunks : List StreamChunk)
  | err (delivered : List StreamChunk) (message : String)
deriving DecidableEq, Repr

/-- The Qt signals emitted by the worker: `token_received`, `finished`
(carrying the full accumulated text) and `error_occurred`. -/
inductive WorkerEvent where
  | token (text : String)
  | completed (full_text : String)
  | failed (description : String)
deriving DecidableEq, Repr

/-- The `for chunk in response` loop of `DeepSeekWorker.run`: a chunk whose
`delta.content` is falsy (absent or the empty string) is skipped; otherwise
the token is appended to `full_content` and `token_received` is emitted.
Returns the emitted token events together with the final `full_content`,
given the accumulator's current value. -/
def run_loop : List StreamChunk → String → List WorkerEvent × String
  | [], acc => ([], acc)
  | c :: cs, acc =>
    match c.content with
    | some t =>
      if t = "" then run_loop cs acc
      else
        let r := run_loop cs (acc ++ t)
        (WorkerEvent.token t :: r.1, r.2)
    | none => run_loop cs acc

/-- `DeepSeekWorker.run`: stream the chunks, then emit exactly one terminal
signal — `finished(full_content)` on normal stream end, or
`error_occurred(str(e))` if an exception was raised while establishing or
reading the stream. -/
def worker_run : StreamResult → List WorkerEvent
  | StreamResult.ok chunks =>
    let r := run_loop chunks ""
    r.1 ++ [WorkerEvent.completed r.2]
  | StreamResult.err delivered e =>
    (run_loop delivered "").1 ++ [WorkerEvent.failed e]

/-- The chunk contents that pass the loop's truthiness test, in arrival
order. -/
def emitted_tokens (chunks : List StreamChunk) : List String :=
  chunks.filterMap fun c =>
    match c.content with
    | some t => if t = "" then none else some t
    | none => none

/-- Concatenation of a list of token texts, in order. -/
def concat_tokens : List String → String
  | [] => ""
  | t :: ts => t ++ concat_tokens ts

/-- The chunks the worker actually saw during a run. -/
def chunks_of : StreamResult → List StreamChunk
  | StreamResult.ok chunks => chunks
  | StreamResult.err delivered _ => delivered

/-- The texts of the `token` events in an event list, in order. -/
def token_texts (evs : List WorkerEvent) : List String :=
  evs.filterMap fun e =>
    match e with
    | WorkerEvent.token t => some t
    | _ => none

/-- Terminal events are `completed` and `failed`. -/
def isTerminal : WorkerEvent → Bool
  | WorkerEvent.token _ => false
  | WorkerEvent.completed _ => true
  | WorkerEvent.failed _ => true

/-- The characters CPython's `str.strip()` removes (`Py_UNICODE_ISSPACE`):
tab through carriage return (0x09–0x0d), the file/group/record/unit
separators (0x1c–0x1f), space, next line (0x85), no-break space (0xa0),
Ogham space mark (0x1680), the en/em spaces (0x2000–0x200a), line and
paragraph separators (0x2028, 0x2029), narrow no-break space (0x202f),
medium mathematical space (0x205f) and ideographic space (0x3000). -/
def py_isspace (c : Char) : Bool :=
  let n := c.toNat
  (0x9 ≤ n && n ≤ 0xd) || (0x1c ≤ n && n ≤ 0x1f) || n = 0x20 ||
    n = 0x85 || n = 0xa0 || n = 0x1680 || (0x2000 ≤ n && n ≤ 0x200a) ||
    n = 0x2028 || n = 0x2029 || n = 0x202f || n = 0x205f || n = 0x3000

/-- Python's `str.strip()`: remove leading and trailing whitespace. -/
def py_strip (s : String) : String :=
  String.mk (((s.data.dropWhile py_isspace).reverse.dropWhile py_isspace).reverse)

/-- Python's `str.replace` for a single-character pattern `c`: every
occurrence of `c` in the character list is substituted by `r` (the
replacement text is not rescanned, matching Python). -/
def repl1 (c : Char) (r : List Char) : List Char → List Char
  | [] => []
  | x :: xs => (if x = c then r else [x]) ++ repl1 c r xs

/-- `append_user_message`'s escaping chain:
`text.replace("&", "&amp;").replace("<", "&lt;").replace(">", "&gt;").replace("\n", "<br>")`. -/
def safe_text (text : String) : String :=
  String.mk (repl1 '\n' "<br>".data
    (repl1 '>' "&gt;".data
      (repl1 '<' "&lt;".data
        (repl1 '&' "&amp;".data text.data))))

/-- Opening part of the user-bubble f-string in `append_user_message`, up to
the `{safe_text}` interpolation point. -/
def userBubbleOpen : String :=
  "\n        <div align=\"right\" style=\"margin-bottom: 10px;\">\n            <div style=\"background-color: rgba(0, 200, 150, 60); \n                        color: white; \n                        padding: 10px 12px; \n                        border-radius: 12px; \n                        text-align: left;\">\n                <div style=\"color: rgba(255, 255, 255, 0.7); font-size: 10px; font-weight: bold; margin-bottom: 4px;\">用户:</div>\n                <div style=\"font-size: 13px; line-height: 1.4;\">"

/-- Closing part of the user-bubble f-string, after `{safe_text}`. -/
def userBubbleClose : String :=
  "</div>\n            </div>\n        </div>\n        "

/-- The full HTML fragment `append_user_message` appends to the display. -/
def userMessageHtml (text : String) : String :=
  userBubbleOpen ++ safe_text text ++ userBubbleClose

/-- Opening part of the assistant-reply wrapper f-string in
`refresh_display_with_markdown`, up to the `{html_body}` interpolation
point. -/
def deepseekOpen : String :=
  "\n                <div style=\"margin-bottom: 20px;\">\n                    <div style=\"margin-bottom: 5px;\">\n                        <span font-size: 14px; font-weight: bold;\">DeepSeek:</span>\n                    </div>\n                    \n                    <div style=\"color: #e0e0e0; \n                                padding-left: 2px;\n                                line-height: 1.5;\">\n                        "

/-- Closing part of the assistant-reply wrapper f-string. -/
def deepseekClose : String :=
  "\n                    </div>\n                </div>\n                "

/-- The wrapper placed around a Markdown-rendered assistant body. -/
def deepseekWrapper (html_body : String) : String :=
  deepseekOpen ++ html_body ++ deepseekClose

/-- `start_ai_message_block`: an empty spacer line followed by the two
`insertHtml` fragments (the `DeepSeek:` label and the open body div). -/
def aiBlockHtml : String :=
  "\n            <div>\n                DeepSeek:\n            </div>\n        " ++ "<div>"

/-- The inline error notice `handle_error` appends to the display. -/
def errorNotice (error_msg : String) : String :=
  "<div style='color:#ff5555; text-align:center; margin:10px;'>⚠️ " ++
    error_msg ++ "</div>"

/-- The mutable fields of `DeepSeekHUD` the pipeline touches: the bounded
conversation history, the input field text, the transient streaming buffer
`temp_response_buffer`, and the display modelled as the ordered list of
appended HTML fragments. -/
structure HUDState where
  history : List Message
  input_field : String
  temp_response_buffer : String
  display : List String
deriving DecidableEq, Repr

/-- The history-truncation statement in `send_message`:
`if len(self.history) > 10: self.history = [self.history[0]] + self.history[-9:]`. -/
def trim_history (h : List Message) : List Message :=
  if h.length > 10 then h.take 1 ++ h.drop (h.length - 9) else h

/-- `append_user_message`: appends the escaped user bubble to the display. -/
def append_user_message (text : String) (st : HUDState) : HUDState :=
  ⟨st.history, st.input_field, st.temp_response_buffer,
    st.display ++ [userMessageHtml text]⟩

/-- `start_ai_message_block`: appends the empty AI reply container. -/
def start_ai_message_block (st : HUDState) : HUDState :=
  ⟨st.history, st.input_field, st.temp_response_buffer,
    st.display ++ [aiBlockHtml]⟩

/-- Observable side effects of `send_message`, in program order. -/
inductive Effect where
  | displayUserBubble (html : String)
  | clearInputField
  | appendUserToHistory (text : String)
  | applyTrim
  | clearStreamBuffer
  | startAIBlock
  | startWorker (api_key : String) (snapshot : List Message)
deriving DecidableEq, Repr

/-- Numeric tag of an effect, used to compare effect orderings. -/
def effect_kind : Effect → Nat
  | Effect.displayUserBubble _ => 0
  | Effect.clearInputField => 1
  | Effect.appendUserToHistory _ => 2
  | Effect.applyTrim => 3
  | Effect.clearStreamBuffer => 4
  | Effect.startAIBlock => 5
  | Effect.startWorker _ _ => 6

/-- `send_message`: strip the input; if empty, return unchanged with no
effects. Otherwise, in program order: show the user bubble, clear the input
field, append the user message to the history, truncate the history, reset
`temp_response_buffer`, open the AI reply container, and start a
`DeepSeekWorker` with the API key and the (truncated) history. The second
component is the emitted effect trace in program order. -/
def send_message (api_key : String) (st : HUDState) : HUDState × List Effect :=
  let text := py_strip st.input_field
  if text = "" then (st, [])
  else
    let st1 := append_user_message text st
    let st2 : HUDState := ⟨st1.history, "", st1.temp_response_buffer, st1.display⟩
    let hist2 := trim_history (st2.history ++ [Message.mk "user" text])
    let st3 : HUDState := ⟨hist2, st2.input_field, "", st2.display⟩
    let st4 := start_ai_message_block st3
    (st4,
     [Effect.displayUserBubble (userMessageHtml text),
      Effect.clearInputField,
      Effect.appendUserToHistory text,
      Effect.applyTrim,
      Effect.clearStreamBuffer,
      Effect.startAIBlock,
      Effect.startWorker api_key hist2])

/-- The per-message body of the loop in `refresh_display_with_markdown`:
system messages are skipped, user messages go through
`append_user_message`'s bubble, anything else is Markdown-rendered and
wrapped. -/
def render_message (md : String → String) (msg : Message) : Option String :=
  if msg.role = "system" then none
  else if msg.role = "user" then some (userMessageHtml msg.content)
  else some (deepseekWrapper (md msg.content))

/-- The HTML fragments `refresh_display_with_markdown` appends after
`self.display.clear()`, as a function of the history. -/
def render_transcript (md : String → String) (h : List Message) : List String :=
  h.filterMap (render_message md)

/-- `refresh_display_with_markdown`: clear the display and re-render the
whole transcript from the history. -/
def refresh_display_with_markdown (md : String → String) (st : HUDState) :
    HUDState :=
  ⟨st.history, st.input_field, st.temp_response_buffer,
    render_transcript md st.history⟩

/-- `render_final_message`: append the assistant message (content =
`full_content` exactly) to the history, then rebuild the display via
`refresh_display_with_markdown`. No truncation is performed here. -/
def render_final_message (md : String → String) (full_content : String)
    (st : HUDState) : HUDState :=
  refresh_display_with_markdown md
    ⟨st.history ++ [Message.mk "assistant" full_content], st.input_field,
      st.temp_response_buffer, st.display⟩

/-- `handle_error`: append the red error notice to the display; nothing else
is touched. -/
def handle_error (error_msg : String) (st : HUDState) : HUDState :=
  ⟨st.history, st.input_field, st.temp_response_buffer,
    st.display ++ [errorNotice error_msg]⟩

/-- The terminal event a run must end with, determined by the stream
outcome: `completed` with the accumulated text on normal end, `failed` with
the exception description on error. -/
def terminal_of : StreamResult → WorkerEvent
  | StreamResult.ok chunks =>
    WorkerEvent.completed (concat_tokens (emitted_tokens chunks))
  | StreamResult.err _ e => WorkerEvent.failed e

/-- Ten messages: the system prompt plus nine user turns. -/
def hist10 : List Message :=
  Message.mk "system" "You are a helpful assistant." ::
    (List.range 9).map fun i => Message.mk "user" (toString i)

/-- A state about to overflow the cap: full length-10 history plus a
pending non-empty submission. -/
def c1_state : HUDState := HUDState.mk hist10 "hello" "" []

/-- A fresh session state with a pending submission. -/
def c8_state : HUDState :=
  HUDState.mk [Message.mk "system" "You are a helpful assistant."] "hi" "" []

/-- The per-character escape map described by the claim: `&` ↦ `&amp;`,
`<` ↦ `&lt;`, `>` ↦ `&gt;`, newline ↦ `<br>`, everything else unchanged. -/
def claimed_escape_char (c : Char) : List Char :=
  if c = '&' then "&amp;".data
  else if c = '<' then "&lt;".data
  else if c = '>' then "&gt;".data
  else if c = '\n' then "<br>".data
  else [c]

/-- The claim's escaping, applied independently to every character. -/
def claimed_escape : List Char → List Char
  | [] => []
  | c :: cs => claimed_escape_char c ++ claimed_escape cs

theorem run_loop_spec (cs : List StreamChunk) :
    ∀ acc, run_loop cs acc =
      ((emitted_tokens cs).map WorkerEvent.token,
        acc ++ concat_tokens (emitted_tokens cs)) := by
  induction cs with
  | nil =>
    intro acc
    simp [run_loop, emitted_tokens, concat_tokens]
  | cons c cs ih =>
    intro acc
    match hc : c.content with
    | none =>
      simp [run_loop, hc, emitted_tokens, List.filterMap_cons, ih]
    | some t =>
      by_cases ht : t = ""
      · simp [run_loop, hc, ht, emitted_tokens, List.filterMap_cons, ih]
      · simp only [run_loop, hc, ht, if_neg ht, ih (acc ++ t)]
        simp [emitted_tokens, List.filterMap_cons, hc, ht, concat_tokens,
          String.append_assoc]

/-- C2: a worker run that ends normally emits its token events in order and
then a single `completed` event whose payload is the exact concatenation of
all the emitted token texts. -/
theorem completed_payload_is_token_concat (chunks : List StreamChunk) :
    worker_run (StreamResult.ok chunks) =
      (emitted_tokens chunks).map WorkerEvent.token ++
        [WorkerEvent.completed (concat_tokens (emitted_tokens chunks))] := by
  simp [worker_run, run_loop_spec chunks ""]

theorem countP_terminal_map_token (l : List String) :
    (l.map WorkerEvent.token).countP isTerminal = 0 := by
  induction l with
  | nil => rfl
  | cons t ts ih => simp [List.countP_cons, isTerminal, ih]

theorem token_texts_map_token (l : List String) :
    token_texts (l.map WorkerEvent.token) = l := by
  induction l with
  | nil => rfl
  | cons t ts ih =>
    simp [token_texts, List.filterMap_cons] at ih ⊢
    exact ih

/-- C4: every worker run — whether the stream ends normally or an exception
is raised while establishing or reading it — emits its token events
followed by exactly one terminal event: `completed` on normal end, or
`failed` carrying the exception description on error; never both, never
neither, and no second (retry) run of events is appended. -/
theorem worker_exactly_one_terminal (r : StreamResult) :
    worker_run r =
      (emitted_tokens (chunks_of r)).map WorkerEvent.token ++ [terminal_of r] ∧
    (worker_run r).countP isTerminal = 1 := by
  constructor
  · cases r with
    | ok chunks =>
      simp [worker_run, run_loop_spec chunks "", chunks_of, terminal_of]
    | err delivered e =>
      simp [worker_run, run_loop_spec delivered "", chunks_of, terminal_of]
  · cases r with
    | ok chunks =>
      simp [worker_run, run_loop_spec chunks "", List.countP_append,
        List.countP_cons, isTerminal, countP_terminal_map_token]
    | err delivered e =>
      simp [worker_run, run_loop_spec delivered "", List.countP_append,
        List.countP_cons, isTerminal, countP_terminal_map_token]

/-- C7 (amended): the worker emits exactly one `token` event per delivered
chunk whose content is present and non-empty, in arrival order, with the
token text equal to the chunk content verbatim. -/
theorem token_events_match_nonempty_chunks (r : StreamResult) :
    token_texts (worker_run r) = emitted_tokens (chunks_of r) := by
  cases r with
  | ok chunks =>
    simp [worker_run, run_loop_spec chunks "", chunks_of, token_texts,
      List.filterMap_append]
    have h := token_texts_map_token (emitted_tokens chunks)
    simpa [token_texts] using h
  | err delivered e =>
    simp [worker_run, run_loop_spec delivered "", chunks_of, token_texts,
      List.filterMap_append]
    have h := token_texts_map_token (emitted_tokens delivered)
    simpa [token_texts] using h

/-- C7 counterexample: a provider may deliver a chunk whose content is the
empty string; it is a delivered chunk, yet the worker emits no `token` event
for it, so there is not exactly one `token` event per delivered chunk. -/
theorem empty_chunk_emits_no_token :
    (chunks_of (StreamResult.ok [StreamChunk.mk (some "")])).length = 1 ∧
    (token_texts (worker_run (StreamResult.ok [StreamChunk.mk (some "")]))).length
      = 0 := by
  exact ⟨rfl, rfl⟩

/-- C5: `handle_error` appends a distinguishable error notice (a red,
centred div embedding the description) to the display and changes nothing
else: history, input field and streaming buffer are untouched. -/
theorem failed_leaves_history_unchanged (error_msg : String) (st : HUDState) :
    (handle_error error_msg st).history = st.history ∧
    (handle_error error_msg st).input_field = st.input_field ∧
    (handle_error error_msg st).temp_response_buffer =
      st.temp_response_buffer ∧
    (handle_error error_msg st).display =
      st.display ++ [errorNotice error_msg] ∧
    (∃ a b, errorNotice error_msg = a ++ error_msg ++ b) :=
  ⟨rfl, rfl, rfl, rfl, ⟨_, _, rfl⟩⟩

/-- C6: submitting text that strips to the empty string is a complete
no-op: the state (history, input field, buffer, display) is returned
unchanged and no effect — in particular no worker start — is emitted. -/
theorem empty_submission_is_noop (api_key : String) (st : HUDState)
    (h : py_strip st.input_field = "") :
    send_message api_key st = (st, []) := by
  simp [send_message, h]

theorem empty_submission_is_noop_witness :
    py_strip (HUDState.mk [Message.mk "system" "You are a helpful assistant."]
        " \u00a0\t" "" []).input_field = "" ∧
    send_message "sk-test"
        (HUDState.mk [Message.mk "system" "You are a helpful assistant."]
          " \u00a0\t" "" []) =
      (HUDState.mk [Message.mk "system" "You are a helpful assistant."]
        " \u00a0\t" "" [], []) :=
  ⟨by decide, empty_submission_is_noop "sk-test" _ (by decide)⟩

/-- C9: the rebuilt display is a function of the history alone — two states
with the same history re-render to identical display markup — and
re-rendering is idempotent. -/
theorem rerender_deterministic (md : String → String) (st1 st2 : HUDState)
    (h : st1.history = st2.history) :
    (refresh_display_with_markdown md st1).display =
      (refresh_display_with_markdown md st2).display ∧
    refresh_display_with_markdown md (refresh_display_with_markdown md st1) =
      refresh_display_with_markdown md st1 := by
  constructor
  · simp [refresh_display_with_markdown, h]
  · rfl

theorem rerender_deterministic_witness :
    (refresh_display_with_markdown (fun s => s)
        (HUDState.mk [Message.mk "user" "hi"] "" "" ["stale"])).display =
      (refresh_display_with_markdown (fun s => s)
        (HUDState.mk [Message.mk "user" "hi"] "" "" [])).display ∧
    refresh_display_with_markdown (fun s => s)
        (refresh_display_with_markdown (fun s => s)
          (HUDState.mk [Message.mk "user" "hi"] "" "" ["stale"])) =
      refresh_display_with_markdown (fun s => s)
        (HUDState.mk [Message.mk "user" "hi"] "" "" ["stale"]) :=
  rerender_deterministic (fun s => s)
    (HUDState.mk [Message.mk "user" "hi"] "" "" ["stale"])
    (HUDState.mk [Message.mk "user" "hi"] "" "" []) rfl

/-- C3 (amended): on `completed(full_content)` the controller appends an
assistant message with exactly that content and rebuilds the whole display
from the history, Markdown-converting the assistant body; the trim
invariant is NOT applied here (the history may exceed the cap until the
next submission). -/
theorem completed_appends_and_rerenders (md : String → String)
    (full_content : String) (st : HUDState) :
    render_final_message md full_content st =
      ⟨st.history ++ [Message.mk "assistant" full_content], st.input_field,
        st.temp_response_buffer,
        render_transcript md
          (st.history ++ [Message.mk "assistant" full_content])⟩ ∧
    render_transcript md (st.history ++ [Message.mk "assistant" full_content]) =
      render_transcript md st.history ++ [deepseekWrapper (md full_content)] := by
  constructor
  · rfl
  · simp only [render_transcript, List.filterMap_append]
    rfl

/-- C3 counterexample: completing a reply on a full (length-10) history
leaves the history at length 11 — `render_final_message` does not apply the
trim invariant the claim asserts. -/
theorem completed_does_not_trim :
    (render_final_message (fun s => s) "hello"
        (HUDState.mk hist10 "" "" [])).history.length = 11 ∧
    ¬ ((render_final_message (fun s => s) "hello"
        (HUDState.mk hist10 "" "" [])).history.length ≤ 10) := by
  exact ⟨by decide, by decide⟩

/-- C1 (amended): the trim invariant is enforced on the user append inside
`send_message` — if the appended history exceeds the cap of 10 it becomes
the system message followed by the most recent 9 entries in their original
relative order, for a total length of 10 — while the assistant append in
`render_final_message` never trims: it always grows the history by exactly
one, even past the cap. -/
theorem user_append_trim_invariant (api_key : String) (st : HUDState)
    (md : String → String) (full : String)
    (hne : ¬ py_strip st.input_field = "")
    (hsys : ∃ m t, st.history = m :: t ∧ m.role = "system")
    (hlen : (st.history ++ [Message.mk "user" (py_strip st.input_field)]).length
      > 10) :
    (send_message api_key st).1.history.length = 10 ∧
    (∃ m t2, (send_message api_key st).1.history = m :: t2 ∧
      m.role = "system" ∧
      t2 = (st.history ++ [Message.mk "user" (py_strip st.input_field)]).drop
        ((st.history ++ [Message.mk "user" (py_strip st.input_field)]).length
          - 9)) ∧
    (render_final_message md full st).history.length = st.history.length + 1 := by
  obtain ⟨m, t, hst, hrole⟩ := hsys
  have hsend : (send_message api_key st).1.history =
      trim_history (st.history ++ [Message.mk "user" (py_strip st.input_field)]) := by
    simp [send_message, hne, append_user_message, start_ai_message_block]
  have htrim : trim_history
        (st.history ++ [Message.mk "user" (py_strip st.input_field)]) =
      (st.history ++ [Message.mk "user" (py_strip st.input_field)]).take 1 ++
        (st.history ++ [Message.mk "user" (py_strip st.input_field)]).drop
          ((st.history ++ [Message.mk "user" (py_strip st.input_field)]).length
            - 9) := by
    unfold trim_history
    rw [if_pos hlen]
  have htake : (st.history ++ [Message.mk "user" (py_strip st.input_field)]).take 1
      = [m] := by
    rw [hst]
    rfl
  refine ⟨?_, ?_, ?_⟩
  · rw [hsend, htrim, List.length_append, htake]
    simp only [List.length_drop, List.length_cons, List.length_nil]
    omega
  · refine ⟨m, (st.history ++ [Message.mk "user" (py_strip st.input_field)]).drop
      ((st.history ++ [Message.mk "user" (py_strip st.input_field)]).length - 9),
      ?_, hrole, rfl⟩
    rw [hsend, htrim, htake]
    rfl
  · simp [render_final_message, refresh_display_with_markdown]

theorem user_append_trim_invariant_witness :
    (¬ py_strip c1_state.input_field = "") ∧
    (send_message "sk-test" c1_state).1.history.length = 10 ∧
    (∃ m t2, (send_message "sk-test" c1_state).1.history = m :: t2 ∧
      m.role = "system" ∧
      t2 = (c1_state.history ++
          [Message.mk "user" (py_strip c1_state.input_field)]).drop
        ((c1_state.history ++
          [Message.mk "user" (py_strip c1_state.input_field)]).length - 9)) ∧
    (render_final_message (fun s => s) "ok" c1_state).history.length =
      c1_state.history.length + 1 := by
  have h := user_append_trim_invariant "sk-test" c1_state (fun s => s) "ok"
    (by decide)
    ⟨Message.mk "system" "You are a helpful assistant.",
      (List.range 9).map fun i => Message.mk "user" (toString i), rfl, rfl⟩
    (by decide)
  exact ⟨by decide, h.1, h.2.1, h.2.2⟩

/-- C1 counterexample: the claim also demands the trim after the assistant
append on completion, but completing a reply over a full length-10 history
leaves 11 messages — the resulting length exceeds the cap and is not 10. -/
theorem assistant_append_skips_trim :
    (render_final_message (fun s => s) "reply"
        (HUDState.mk hist10 "" "x" [])).history.length > 10 ∧
    ¬ ((render_final_message (fun s => s) "reply"
        (HUDState.mk hist10 "" "x" [])).history.length = 10) := by
  exact ⟨by decide, by decide⟩

/-- C8 (amended): on a non-empty submission the side effects occur in this
program order: show the user bubble in the display, clear the raw input
buffer, append the user message to the history, apply the trim invariant,
reset the streaming buffer, open the AI reply container, and finally start
a worker with the credential and the trimmed history snapshot. (The claim's
order — history append and trim before the input-buffer clear — does not
match: the input buffer is cleared first.) -/
theorem submission_effect_order (api_key : String) (st : HUDState)
    (hne : ¬ py_strip st.input_field = "") :
    send_message api_key st =
      (⟨trim_history (st.history ++
          [Message.mk "user" (py_strip st.input_field)]), "", "",
        st.display ++ [userMessageHtml (py_strip st.input_field), aiBlockHtml]⟩,
       [Effect.displayUserBubble (userMessageHtml (py_strip st.input_field)),
        Effect.clearInputField,
        Effect.appendUserToHistory (py_strip st.input_field),
        Effect.applyTrim,
        Effect.clearStreamBuffer,
        Effect.startAIBlock,
        Effect.startWorker api_key
          (trim_history (st.history ++
            [Message.mk "user" (py_strip st.input_field)]))]) := by
  simp [send_message, hne, append_user_message, start_ai_message_block]

theorem submission_effect_order_witness :
    (¬ py_strip c8_state.input_field = "") ∧
    send_message "sk-test" c8_state =
      (⟨trim_history (c8_state.history ++
          [Message.mk "user" (py_strip c8_state.input_field)]), "", "",
        c8_state.display ++
          [userMessageHtml (py_strip c8_state.input_field), aiBlockHtml]⟩,
       [Effect.displayUserBubble
          (userMessageHtml (py_strip c8_state.input_field)),
        Effect.clearInputField,
        Effect.appendUserToHistory (py_strip c8_state.input_field),
        Effect.applyTrim,
        Effect.clearStreamBuffer,
        Effect.startAIBlock,
        Effect.startWorker "sk-test"
          (trim_history (c8_state.history ++
            [Message.mk "user" (py_strip c8_state.input_field)]))]) :=
  ⟨by decide, submission_effect_order "sk-test" c8_state (by decide)⟩

/-- C8 counterexample: projecting the effect trace of a concrete submission
onto the claim's five effects (tags 2 = history append, 3 = trim,
1 = input clear, 4 = fresh streaming buffer, 6 = worker start) yields
[1, 2, 3, 4, 6] — the input buffer is cleared before the history append —
not the claimed order [2, 3, 1, 4, 6]. -/
theorem submission_effect_order_counterexample :
    ((send_message "sk-test" c8_state).2.map effect_kind).filter
        (fun k => decide (k = 1 ∨ k = 2 ∨ k = 3 ∨ k = 4 ∨ k = 6)) =
      [1, 2, 3, 4, 6] ∧
    ([1, 2, 3, 4, 6] : List Nat) ≠ [2, 3, 1, 4, 6] := by
  exact ⟨rfl, by decide⟩

theorem repl1_append (c : Char) (r : List Char) (a b : List Char) :
    repl1 c r (a ++ b) = repl1 c r a ++ repl1 c r b := by
  induction a with
  | nil => rfl
  | cons x xs ih => simp [repl1, ih, List.append_assoc]

theorem escape_chain_append (a b : List Char) :
    repl1 '\n' "<br>".data (repl1 '>' "&gt;".data
        (repl1 '<' "&lt;".data (repl1 '&' "&amp;".data (a ++ b)))) =
      repl1 '\n' "<br>".data (repl1 '>' "&gt;".data
        (repl1 '<' "&lt;".data (repl1 '&' "&amp;".data a))) ++
      repl1 '\n' "<br>".data (repl1 '>' "&gt;".data
        (repl1 '<' "&lt;".data (repl1 '&' "&amp;".data b))) := by
  simp [repl1_append]

theorem escape_chain_single (c : Char) :
    repl1 '\n' "<br>".data (repl1 '>' "&gt;".data
        (repl1 '<' "&lt;".data (repl1 '&' "&amp;".data [c]))) =
      claimed_escape_char c := by
  by_cases h1 : c = '&'
  · subst h1
    rfl
  · by_cases h2 : c = '<'
    · subst h2
      rfl
    · by_cases h3 : c = '>'
      · subst h3
        rfl
      · by_cases h4 : c = '\n'
        · subst h4
          rfl
        · simp [repl1, h1, h2, h3, h4, claimed_escape_char]

theorem escape_chain_eq_claimed (l : List Char) :
    repl1 '\n' "<br>".data (repl1 '>' "&gt;".data
        (repl1 '<' "&lt;".data (repl1 '&' "&amp;".data l))) =
      claimed_escape l := by
  induction l with
  | nil => rfl
  | cons c cs ih =>
    have hsplit : c :: cs = [c] ++ cs := rfl
    rw [hsplit, escape_chain_append, escape_chain_single, ih]
    rfl

/-- C10: the user-bubble markup embeds the submitted text with the HTML
special characters escaped exactly as claimed (`&` as `&amp;`, `<` as
`&lt;`, `>` as `&gt;`, newlines as `<br>`, character by character), and
the same escaped bubble is used both on the initial append
(`append_user_message`) and on every full re-render (the user branch of
`refresh_display_with_markdown`). -/
theorem user_text_always_escaped (text : String) (md : String → String) :
    safe_text text = String.mk (claimed_escape text.data) ∧
    userMessageHtml text = userBubbleOpen ++ safe_text text ++ userBubbleClose ∧
    (∀ st : HUDState, (append_user_message text st).display =
      st.display ++ [userMessageHtml text]) ∧
    render_message md (Message.mk "user" text) = some (userMessageHtml text) := by
  refine ⟨?_, rfl, fun st => rfl, rfl⟩
  unfold safe_text
  rw [escape_chain_eq_claimed]
